import Mathlib

/-!
Shallow embedding of the credential-lifecycle and request-authorization core
of the go-agent-manager backend.

The embedded functions are translated from the current revision of the
Keycloak package and middleware (src/unnamed/part_001 and
src/unnamed/part_005; the src/keycloak/keycloak.go and src/unnamed/part_004
files are an earlier revision of the same functions).  External RPC calls to
the identity provider (LoginClient, RetrospectToken, DecodeAccessToken) are
parameters of the embedded functions: each embedding takes the provider's
response for the call it performs.  Go pointers are `Option`, Go `error`
results are `Except String`, and a nil-pointer dereference is an explicit
`panicked` outcome.
-/

/-- Result of the identity provider's token introspection
(RetrospectToken).  The Active field of the gocloak result struct is a Go
pointer to bool, modelled as `Option Bool` with `none` for a nil pointer. -/
structure IntrospectResult where
  active : Option Bool
deriving DecidableEq

/-- A dynamically typed JSON claim value, as produced by DecodeAccessToken
into a Go map from strings to dynamic values. -/
inductive ClaimValue where
  | str (s : String)
  | num (n : Int)
  | boolean (b : Bool)
  | arr (elems : List ClaimValue)
  | obj (fields : List (String × ClaimValue))

/-- The decoded claims map (Go: map[string]interface), modelled as an
association list with first-match lookup. -/
abbrev Claims := List (String × ClaimValue)

/-- Go map lookup on the claims map. -/
def lookupClaim : Claims → String → Option ClaimValue
  | [], _ => none
  | (k, v) :: rest, key => if k == key then some v else lookupClaim rest key

/-- The identity provider as seen by ValidateAccessToken: the responses it
gives to the introspection call and the decode call for each token string. -/
structure Provider where
  retrospect : String → Except String IntrospectResult
  decode : String → Except String Claims

/-- Outcome of a Go function returning (value, error): `err` is a non-nil
error, `ok` a successful return, and `panicked` a runtime panic (nil-pointer
dereference). -/
inductive GoResult (α : Type) where
  | panicked
  | err (msg : String)
  | ok (val : α)
deriving DecidableEq

/-- The role-collection loop of ValidateAccessToken (part_001 lines
148-153): iterate over the realm roles and append each element that is a
string, silently skipping non-strings. -/
def roleStrings : List ClaimValue → List String
  | [] => []
  | ClaimValue.str s :: rest => s :: roleStrings rest
  | _ :: rest => roleStrings rest

/-- Role extraction from the decoded claims (part_001 lines 144-154):
look up realm_access as an object, then its roles field as an array, and
collect the string elements; any missing or wrongly-typed level yields the
empty (nil) role slice. -/
def extractRoles (claimsMap : Claims) : List String :=
  match lookupClaim claimsMap "realm_access" with
  | some (ClaimValue.obj realmAccess) =>
    match lookupClaim realmAccess "roles" with
    | some (ClaimValue.arr realmRoles) => roleStrings realmRoles
    | _ => []
  | _ => []

/-- ValidateAccessToken (part_001 lines 102-157), instrumented: the second
component records whether the DecodeAccessToken call was reached.  Steps:
introspect the token (an RPC error is returned as-is); dereference the
Active pointer (nil means a runtime panic); if not active, return the error
"token is not active"; otherwise decode the token (an RPC error is returned
as-is), extract the sub claim as a string (else the error "sub claim not
found or invalid"), and extract the roles. -/
def ValidateAccessTokenT (p : Provider) (tokenString : String) :
    GoResult (String × List String) × Bool :=
  match p.retrospect tokenString with
  | Except.error e => (GoResult.err e, false)
  | Except.ok result =>
    match result.active with
    | none => (GoResult.panicked, false)
    | some active =>
      if !active then (GoResult.err "token is not active", false)
      else
        match p.decode tokenString with
        | Except.error e => (GoResult.err e, true)
        | Except.ok claimsMap =>
          match lookupClaim claimsMap "sub" with
          | some (ClaimValue.str sub) =>
            (GoResult.ok (sub, extractRoles claimsMap), true)
          | _ => (GoResult.err "sub claim not found or invalid", true)

/-- ValidateAccessToken's caller-visible result. -/
def ValidateAccessToken (p : Provider) (tokenString : String) :
    GoResult (String × List String) :=
  (ValidateAccessTokenT p tokenString).1

/-- Go strings.HasPrefix (on the underlying character list). -/
def strHasPre (s pre : String) : Bool :=
  pre.data.isPrefixOf s.data

/-- Go strings.TrimPrefix: remove the leading occurrence of pre, if any. -/
def strTrimPre (s pre : String) : String :=
  if pre.data.isPrefixOf s.data then String.mk (s.data.drop pre.data.length)
  else s

/-- Helper for Go strings.Contains: does the haystack contain the needle as
a contiguous sublist? -/
def strContainsAux (needle : List Char) : List Char → Bool
  | [] => needle.isEmpty
  | c :: rest => needle.isPrefixOf (c :: rest) || strContainsAux needle rest

/-- Go strings.Contains sub within s. -/
def strContains (s sub : String) : Bool :=
  strContainsAux sub.data s.data

/-- Outcome of the authentication middleware for one request: an HTTP error
response, a pass-through to the next handler carrying the caller identity
stored in the request context, or a runtime panic propagated from
validation. -/
inductive MWResult where
  | panicked
  | httpError (code : Nat) (message : String)
  | success (userID : String) (roles : List String)
deriving DecidableEq

/-- KeycloakAuthMiddleware (part_005 lines 23-53): require an Authorization
header with a Bearer prefix, validate the token, map a validation error
whose text contains "token is not active" to 401 and every other validation
error to 500, and on success store the subject and roles for the next
handler. -/
def KeycloakAuthMiddleware (p : Provider) (authHeader : String) : MWResult :=
  if authHeader == "" then
    MWResult.httpError 401 "Authorization header is required"
  else if !(strHasPre authHeader "Bearer ") then
    MWResult.httpError 401 "Invalid Authorization header format"
  else
    let tokenString := strTrimPre authHeader "Bearer "
    match ValidateAccessToken p tokenString with
    | GoResult.panicked => MWResult.panicked
    | GoResult.err e =>
      if strContains e "token is not active" then
        MWResult.httpError 401 "Token expired or invalid"
      else
        MWResult.httpError 500 ("Token validation failed: " ++ e)
    | GoResult.ok (userID, roles) => MWResult.success userID roles

/-- Outcome of the role gate: an HTTP error or a pass to the next handler. -/
inductive GateResult where
  | httpError (code : Nat) (message : String)
  | next
deriving DecidableEq

/-- The role check loop of RBACMiddleware (part_005 lines 66-77): the
caller passes when some required role equals (string equality) some caller
role. -/
def hasRequiredRole (requiredRoles userRoles : List String) : Bool :=
  requiredRoles.any fun requiredRole =>
    userRoles.any fun userRole => userRole == requiredRole

/-- RBACMiddleware (part_005 lines 56-85): read the caller's role list from
the request context (absent or wrongly typed yields 403), grant when the
caller holds at least one required role, otherwise 403. -/
def RBACMiddleware (requiredRoles : List String)
    (ctxUserRoles : Option (List String)) : GateResult :=
  match ctxUserRoles with
  | none => GateResult.httpError 403 "User roles not found context"
  | some userRoles =>
    if !(hasRequiredRole requiredRoles userRoles) then
      GateResult.httpError 403 "Forbidden: insufficient roles"
    else GateResult.next

/-- The admin credential returned by LoginClient (gocloak JWT): the access
token string and the reported validity in seconds (a Go int). -/
structure JWT where
  accessToken : String
  expiresIn : Int
deriving DecidableEq

/-- Two's-complement wraparound of a 64-bit Go int value: the constants are
2 to the power 63 and 2 to the power 64, so any integer is reduced to its
int64 representative in the interval from minus 2 to the 63rd up to but
excluding 2 to the 63rd. -/
def wrap64 (n : Int) : Int :=
  (n + 9223372036854775808) % 18446744073709551616 - 9223372036854775808

/-- The next-refresh delay in seconds computed by startAdminTokenRefresher
(part_001 lines 92-96): thirty seconds before reported expiry, floored at
one second.  The subtraction is Go int (64-bit) arithmetic, so it wraps
when ExpiresIn is within 30 of the minimum int64. -/
def refreshDelay (expiresInReported : Int) : Int :=
  let expiresIn := wrap64 (expiresInReported - 30)
  if expiresIn < 1 then 1 else expiresIn

/-- The duration in nanoseconds actually handed to time.AfterFunc on the
success path (part_001 line 98): time.Duration(expiresIn)*time.Second is an
int64 multiplication by one billion, which wraps when the delay in seconds
exceeds about 9.2 billion. -/
def afterFuncNanos (delaySeconds : Int) : Int :=
  wrap64 (delaySeconds * 1000000000)

/-- One iteration of the startAdminTokenRefresher loop (part_001 lines
71-99), given the stored credential and the LoginClient response for this
attempt.  Returns the stored credential after the iteration and the delay
in seconds scheduled (time.AfterFunc) before the next RenewalSignal: on
failure the stored credential is untouched and the retry is scheduled after
10 seconds; on success the new credential is stored and the next refresh is
scheduled after `refreshDelay`. -/
def refresherStep (adminToken : Option JWT)
    (loginResult : Except String JWT) : Option JWT × Int :=
  match loginResult with
  | Except.error _ => (adminToken, 10)
  | Except.ok token => (some token, refreshDelay token.expiresIn)

/-- A run of consecutive refresher iterations: the final stored credential
and the list of delays scheduled, one per received RenewalSignal. -/
def refresherRun (adminToken : Option JWT) :
    List (Except String JWT) → Option JWT × List Int
  | [] => (adminToken, [])
  | r :: rs =>
    let st := refresherStep adminToken r
    let rest := refresherRun st.1 rs
    (rest.1, st.2 :: rest.2)

/-- getAdminAccessToken (part_001 lines 32-67), given the cached credential
and the LoginClient response were a login performed.  Returns the Go result,
the cache afterwards, and whether the login endpoint was called.  If a
credential is cached it is returned directly with no expiry check (the
double-checked lock collapses in this sequential embedding: both checks see
the same cache); only an empty cache falls back to a synchronous login. -/
def getAdminAccessToken (adminToken : Option JWT)
    (loginResult : Except String JWT) :
    Except String String × Option JWT × Bool :=
  match adminToken with
  | some t => (Except.ok t.accessToken, some t, false)
  | none =>
    match loginResult with
    | Except.error e => (Except.error e, none, true)
    | Except.ok t => (Except.ok t.accessToken, some t, true)

/-- State of the capacity-1 buffered channel tokenRefreshC created by
InitKeycloak (part_001 line 26): whether the one-slot buffer holds a
pending trigger, and how many senders are blocked in a send on it. -/
structure Chan1 where
  full : Bool
  blockedSenders : Nat
deriving DecidableEq

/-- The plain Go channel send used by the source for every RenewalSignal
(part_001 lines 28, 85, 98).  Per Go channel semantics a send on a buffered
channel blocks when the buffer is full: if the slot is free the value is
buffered and the sender proceeds, otherwise the sender blocks and joins the
queue of blocked senders.  The boolean reports whether the sender blocked. -/
def chanSend (c : Chan1) : Chan1 × Bool :=
  if c.full then (Chan1.mk true (c.blockedSenders + 1), true)
  else (Chan1.mk true c.blockedSenders, false)

/-- Modelled from the spec: the non-blocking drop-on-full send the spec
describes for RenewalSignal (a duplicate signal is dropped rather than
queued or blocking the sender).  Stated only to be compared with
`chanSend`, the send the source actually performs. -/
def specNonBlockingSend (c : Chan1) : Chan1 × Bool :=
  if c.full then (c, false)
  else (Chan1.mk true c.blockedSenders, false)

/-- The role check succeeds exactly when some required role also appears in
the caller's role list (string equality). -/
theorem hasRequiredRole_eq_true_iff (required userRoles : List String) :
    hasRequiredRole required userRoles = true ↔
      ∃ r, r ∈ required ∧ r ∈ userRoles := by
  simp only [hasRequiredRole, List.any_eq_true, beq_iff_eq]
  constructor
  · rintro ⟨r, hr, u, hu, heq⟩
    exact ⟨r, hr, heq ▸ hu⟩
  · rintro ⟨r, hr, hu⟩
    exact ⟨r, hr, r, hu, rfl⟩

/-- C1: for every caller token for which introspection reports
active = false, ValidateAccessToken fails closed with the Unauthenticated
error "token is not active", and the decode call is never reached, so no
claims are extracted. -/
theorem C1_inactive_token_fail_closed (p : Provider) (tok : String)
    (r : IntrospectResult) (hres : p.retrospect tok = Except.ok r)
    (hact : r.active = some false) :
    ValidateAccessTokenT p tok = (GoResult.err "token is not active", false) := by
  simp [ValidateAccessTokenT, hres, hact]

/-- A provider whose introspection reports an inactive token. -/
def inactiveProvider : Provider :=
  Provider.mk (fun _ => Except.ok (IntrospectResult.mk (some false)))
    (fun _ => Except.error "decode must not be reached")

/-- Concrete instance of C1 at a provider reporting active = false. -/
theorem C1_inactive_token_fail_closed_witness :
    inactiveProvider.retrospect "tok123"
        = Except.ok (IntrospectResult.mk (some false))
    ∧ (IntrospectResult.mk (some false)).active = some false
    ∧ ValidateAccessTokenT inactiveProvider "tok123"
        = (GoResult.err "token is not active", false) :=
  ⟨rfl, rfl, C1_inactive_token_fail_closed inactiveProvider "tok123" _ rfl rfl⟩

/-- C2: the role gate grants access if and only if the intersection of the
caller's roles and the required roles is non-empty (exact string equality,
logical OR across required roles); required role admin with caller roles
viewer and admin is granted, with caller role viewer alone is denied. -/
theorem C2_role_gate_or_semantics :
    (∀ required userRoles : List String,
      RBACMiddleware required (some userRoles) = GateResult.next
        ↔ ∃ r, r ∈ required ∧ r ∈ userRoles)
    ∧ RBACMiddleware ["admin"] (some ["viewer", "admin"]) = GateResult.next
    ∧ RBACMiddleware ["admin"] (some ["viewer"])
        = GateResult.httpError 403 "Forbidden: insufficient roles" := by
  refine ⟨?_, by decide, by decide⟩
  intro required userRoles
  have hmain : RBACMiddleware required (some userRoles) = GateResult.next
      ↔ hasRequiredRole required userRoles = true := by
    unfold RBACMiddleware
    cases h : hasRequiredRole required userRoles <;> simp [h]
  rw [hmain, hasRequiredRole_eq_true_iff]

/-- A provider whose introspection reports active and whose decoded claims
lack the sub field. -/
def noSubProvider : Provider :=
  Provider.mk (fun _ => Except.ok (IntrospectResult.mk (some true)))
    (fun _ => Except.ok [("iss", ClaimValue.str "kc")])

/-- A provider that is unreachable: both calls fail with a network error. -/
def unreachableProvider : Provider :=
  Provider.mk (fun _ => Except.error "connection refused")
    (fun _ => Except.error "connection refused")

/-- C3 counterexample: a missing sub claim is surfaced by the middleware as
an HTTP 500 server error with the same status code as a network error, not
as an access-denied (401) response, so the two failure classes are not kept
distinct as the claim states. -/
theorem C3_counterexample :
    KeycloakAuthMiddleware noSubProvider "Bearer tok123"
      = MWResult.httpError 500
          "Token validation failed: sub claim not found or invalid"
    ∧ KeycloakAuthMiddleware unreachableProvider "Bearer tok123"
      = MWResult.httpError 500 "Token validation failed: connection refused"
    ∧ KeycloakAuthMiddleware noSubProvider "Bearer tok123"
      ≠ MWResult.httpError 401 "Token expired or invalid" := by
  refine ⟨rfl, rfl, by decide⟩

/-- C3 (amended): a failure of ValidateAccessToken is surfaced as a 401
access-denied response exactly when its error text contains the substring
"token is not active"; every other failure, a missing or wrongly typed sub
claim included, is surfaced as a 500 server error, conflated with
network/provider errors. -/
theorem C3_error_mapping (p : Provider) (hdr e : String)
    (hne : hdr ≠ "") (hpre : strHasPre hdr "Bearer " = true)
    (hval : ValidateAccessToken p (strTrimPre hdr "Bearer ")
        = GoResult.err e) :
    KeycloakAuthMiddleware p hdr =
      (if strContains e "token is not active" then
        MWResult.httpError 401 "Token expired or invalid"
      else MWResult.httpError 500 ("Token validation failed: " ++ e)) := by
  have h1 : (hdr == "") = false := by
    rw [beq_eq_false_iff_ne]
    exact hne
  simp [KeycloakAuthMiddleware, h1, hpre, hval]

/-- Concrete instance of the amended C3 mapping at a provider whose decoded
claims lack the sub field. -/
theorem C3_error_mapping_witness :
    ("Bearer tok123" : String) ≠ ""
    ∧ strHasPre "Bearer tok123" "Bearer " = true
    ∧ ValidateAccessToken noSubProvider (strTrimPre "Bearer tok123" "Bearer ")
        = GoResult.err "sub claim not found or invalid"
    ∧ KeycloakAuthMiddleware noSubProvider "Bearer tok123"
        = (if strContains "sub claim not found or invalid" "token is not active"
            then MWResult.httpError 401 "Token expired or invalid"
          else MWResult.httpError 500
            ("Token validation failed: " ++ "sub claim not found or invalid")) :=
  ⟨by decide, rfl, rfl,
    C3_error_mapping noSubProvider "Bearer tok123"
      "sub claim not found or invalid" (by decide) rfl rfl⟩

/-- An integer already inside the int64 range is unchanged by the
two's-complement wraparound. -/
theorem wrap64_eq_self (n : Int) (h1 : -9223372036854775808 ≤ n)
    (h2 : n < 9223372036854775808) : wrap64 n = n := by
  unfold wrap64
  omega

/-- C4 counterexample: the claim quantifies over every reported
expiresInSeconds, but the source's arithmetic is Go int64.  At the minimum
int64 (which is at most 31, so the claim demands a delay of exactly 1
second) the subtraction wraps and the computed delay is 2 to the 63rd minus
30 seconds; and at the maximum int64 the nanosecond conversion handed to
time.AfterFunc wraps to a negative duration, so the trigger fires
immediately rather than about E - 30 seconds later. -/
theorem C4_counterexample :
    refreshDelay (-9223372036854775808) = 9223372036854775778
    ∧ refreshDelay (-9223372036854775808) ≠ 1
    ∧ (-9223372036854775808 : Int) ≤ 31
    ∧ afterFuncNanos (refreshDelay 9223372036854775807) = -31000000000 := by
  decide

/-- C4 (amended): for every successful login whose reported
expiresInSeconds = E satisfies -2^63 + 30 ≤ E ≤ 9223372066 — so that
neither the int64 subtraction E - 30 nor the nanosecond conversion for
time.AfterFunc overflows — the refresher stores the new credential and
schedules the next renewal trigger exactly max (E - 30) 1 seconds later,
the duration handed to the timer being exactly that many seconds in
nanoseconds; boundary instances: E = 3600 gives 3570, E = 31 gives 1,
E = 32 gives 2. -/
theorem C4_renewal_scheduling_int64 (st : Option JWT) (token : JWT)
    (h1 : -9223372036854775778 ≤ token.expiresIn)
    (h2 : token.expiresIn ≤ 9223372066) :
    refresherStep st (Except.ok token)
        = (some token, refreshDelay token.expiresIn)
      ∧ refreshDelay token.expiresIn = max (token.expiresIn - 30) 1
      ∧ afterFuncNanos (refreshDelay token.expiresIn)
          = refreshDelay token.expiresIn * 1000000000
      ∧ refreshDelay 3600 = 3570 ∧ refreshDelay 31 = 1 ∧ refreshDelay 32 = 2 := by
  have hsub : wrap64 (token.expiresIn - 30) = token.expiresIn - 30 := by
    apply wrap64_eq_self <;> omega
  have hd : refreshDelay token.expiresIn = max (token.expiresIn - 30) 1 := by
    simp only [refreshDelay, hsub]
    rcases lt_or_le (token.expiresIn - 30) 1 with h | h
    · rw [if_pos h]
      exact (max_eq_right h.le).symm
    · rw [if_neg (not_lt.mpr h)]
      exact (max_eq_left h).symm
  refine ⟨rfl, hd, ?_, by decide, by decide, by decide⟩
  rw [hd]
  have hmax1 : (1 : Int) ≤ max (token.expiresIn - 30) 1 := le_max_right _ _
  have hmax2 : max (token.expiresIn - 30) 1 ≤ 9223372036 :=
    max_le (by omega) (by omega)
  unfold afterFuncNanos
  apply wrap64_eq_self <;> omega

/-- Concrete instance of the amended C4 at a login reporting 3600 seconds
of validity. -/
theorem C4_renewal_scheduling_int64_witness :
    (-9223372036854775778 : Int) ≤ 3600
    ∧ (3600 : Int) ≤ 9223372066
    ∧ (refresherStep none (Except.ok (JWT.mk "tok123" 3600))
          = (some (JWT.mk "tok123" 3600), refreshDelay 3600)
        ∧ refreshDelay 3600 = max (3600 - 30) 1
        ∧ afterFuncNanos (refreshDelay 3600) = refreshDelay 3600 * 1000000000
        ∧ refreshDelay 3600 = 3570 ∧ refreshDelay 31 = 1
        ∧ refreshDelay 32 = 2) :=
  ⟨by decide, by decide,
    C4_renewal_scheduling_int64 none (JWT.mk "tok123" 3600)
      (by decide) (by decide)⟩

/-- C5: a failed login leaves the stored credential unchanged and schedules
a retry after the fixed 10-second backoff, and a run of any number of
consecutive failures leaves the credential unchanged while scheduling a
10-second retry after every single failure. -/
theorem C5_failure_keeps_credential_and_retries :
    ∀ (st : Option JWT) (msgs : List String),
      (∀ e, refresherStep st (Except.error e) = (st, 10))
      ∧ refresherRun st (msgs.map Except.error)
          = (st, msgs.map fun _ => (10 : Int)) := by
  intro st msgs
  refine ⟨fun e => rfl, ?_⟩
  induction msgs with
  | nil => rfl
  | cons m ms ih => simp [refresherRun, refresherStep, ih]

/-- Collecting the string elements of a list that consists entirely of
string claim values returns exactly those strings. -/
theorem roleStrings_map_str (l : List String) :
    roleStrings (l.map ClaimValue.str) = l := by
  induction l with
  | nil => rfl
  | cons a t ih => simp [roleStrings, ih]

/-- C6: for a token whose introspection reports active and whose decoded
claims carry a string sub field and a realm_access object whose roles field
is a list of strings, ValidateAccessToken succeeds and returns that subject
together with exactly that role list. -/
theorem C6_success_returns_sub_and_roles (p : Provider) (tok sub : String)
    (roleNames : List String) (claimsMap realmAccess : Claims)
    (hres : p.retrospect tok = Except.ok (IntrospectResult.mk (some true)))
    (hdec : p.decode tok = Except.ok claimsMap)
    (hsub : lookupClaim claimsMap "sub" = some (ClaimValue.str sub))
    (hra : lookupClaim claimsMap "realm_access"
        = some (ClaimValue.obj realmAccess))
    (hroles : lookupClaim realmAccess "roles"
        = some (ClaimValue.arr (roleNames.map ClaimValue.str))) :
    ValidateAccessToken p tok = GoResult.ok (sub, roleNames) := by
  simp [ValidateAccessToken, ValidateAccessTokenT, hres, hdec, hsub,
    extractRoles, hra, hroles, roleStrings_map_str]

/-- A provider for the scenario: active token, sub u1, realm roles admin
and viewer. -/
def happyProvider : Provider :=
  Provider.mk (fun _ => Except.ok (IntrospectResult.mk (some true)))
    (fun _ => Except.ok
      [("sub", ClaimValue.str "u1"),
       ("realm_access", ClaimValue.obj
         [("roles", ClaimValue.arr
           [ClaimValue.str "admin", ClaimValue.str "viewer"])])])

/-- Concrete instance of C6: token tok123 with sub u1 and roles admin and
viewer validates to exactly that pair. -/
theorem C6_success_returns_sub_and_roles_witness :
    happyProvider.retrospect "tok123"
        = Except.ok (IntrospectResult.mk (some true))
    ∧ (∃ claimsMap, happyProvider.decode "tok123" = Except.ok claimsMap
        ∧ lookupClaim claimsMap "sub" = some (ClaimValue.str "u1"))
    ∧ ValidateAccessToken happyProvider "tok123"
        = GoResult.ok ("u1", ["admin", "viewer"]) :=
  ⟨rfl, ⟨_, rfl, rfl⟩,
    C6_success_returns_sub_and_roles happyProvider "tok123" "u1"
      ["admin", "viewer"] _ _ rfl rfl rfl rfl rfl⟩

/-- C7: for a token whose introspection reports active and whose decoded
claims carry a string sub field but omit realm_access entirely, or whose
realm_access object lacks a roles field, ValidateAccessToken still succeeds
and returns the subject with an empty role list. -/
theorem C7_missing_realm_access_empty_roles (p : Provider) (tok sub : String)
    (claimsMap : Claims)
    (hres : p.retrospect tok = Except.ok (IntrospectResult.mk (some true)))
    (hdec : p.decode tok = Except.ok claimsMap)
    (hsub : lookupClaim claimsMap "sub" = some (ClaimValue.str sub))
    (hra : lookupClaim claimsMap "realm_access" = none
        ∨ ∃ realmAccess, lookupClaim claimsMap "realm_access"
              = some (ClaimValue.obj realmAccess)
            ∧ lookupClaim realmAccess "roles" = none) :
    ValidateAccessToken p tok = GoResult.ok (sub, []) := by
  have hroles : extractRoles claimsMap = [] := by
    rcases hra with h | ⟨ra, h1, h2⟩
    · simp [extractRoles, h]
    · simp [extractRoles, h1, h2]
  simp [ValidateAccessToken, ValidateAccessTokenT, hres, hdec, hsub, hroles]

/-- A provider for an active token whose decoded claims carry only sub. -/
def noRealmAccessProvider : Provider :=
  Provider.mk (fun _ => Except.ok (IntrospectResult.mk (some true)))
    (fun _ => Except.ok [("sub", ClaimValue.str "u1")])

/-- Concrete instance of C7 at a provider whose decoded claims omit
realm_access. -/
theorem C7_missing_realm_access_empty_roles_witness :
    noRealmAccessProvider.retrospect "tok123"
        = Except.ok (IntrospectResult.mk (some true))
    ∧ (∃ claimsMap, noRealmAccessProvider.decode "tok123" = Except.ok claimsMap
        ∧ lookupClaim claimsMap "realm_access" = none)
    ∧ ValidateAccessToken noRealmAccessProvider "tok123"
        = GoResult.ok ("u1", []) :=
  ⟨rfl, ⟨_, rfl, rfl⟩,
    C7_missing_realm_access_empty_roles noRealmAccessProvider "tok123" "u1"
      _ rfl rfl rfl (Or.inl rfl)⟩

/-- C8 counterexample: the send the source performs while a trigger is
already pending (buffer full) blocks the sender and queues it, instead of
the drop-the-duplicate no-op the claim states; it differs from the
spec-modelled non-blocking send at that state. -/
theorem C8_counterexample :
    chanSend (Chan1.mk true 0) = (Chan1.mk true 1, true)
    ∧ chanSend (Chan1.mk true 0) ≠ specNonBlockingSend (Chan1.mk true 0)
    ∧ specNonBlockingSend (Chan1.mk true 0) = (Chan1.mk true 0, false) := by
  decide

/-- C8 (amended): the capacity-1 channel buffers at most one pending
RenewalSignal (after any send the single slot is full), but the source's
plain send blocks the sender when a trigger is already pending — the
sender joins the blocked queue — rather than dropping the duplicate;
only a send into a free slot is non-blocking. -/
theorem C8_send_blocks_when_full :
    ∀ c : Chan1,
      chanSend c
        = (Chan1.mk true
            (if c.full then c.blockedSenders + 1 else c.blockedSenders),
           c.full)
      ∧ (chanSend c).1.full = true := by
  intro c
  rcases c with ⟨f, n⟩
  cases f <;> exact ⟨rfl, rfl⟩

/-- C9: once the cache holds a credential, getAdminAccessToken returns the
cached access token with no expiry check and no login call, for every
possible login outcome; the synchronous login fallback runs only when the
cache is empty. -/
theorem C9_cache_hit_never_logs_in :
    ∀ (t : JWT) (loginResult : Except String JWT),
      getAdminAccessToken (some t) loginResult
        = (Except.ok t.accessToken, some t, false)
      ∧ (getAdminAccessToken none loginResult).2.2 = true := by
  intro t lr
  exact ⟨rfl, by cases lr <;> rfl⟩

/-- C10: when the provider's introspection response carries a nil Active
pointer, ValidateAccessToken panics on the dereference instead of returning
an error to its caller. -/
theorem C10_nil_active_panics (p : Provider) (tok : String)
    (hres : p.retrospect tok = Except.ok (IntrospectResult.mk none)) :
    ValidateAccessToken p tok = GoResult.panicked := by
  simp [ValidateAccessToken, ValidateAccessTokenT, hres]

/-- A provider whose introspection response has a nil Active pointer. -/
def nilActiveProvider : Provider :=
  Provider.mk (fun _ => Except.ok (IntrospectResult.mk none))
    (fun _ => Except.error "unreached")

/-- Concrete instance of C10: a response with a nil Active pointer makes
validation panic. -/
theorem C10_nil_active_panics_witness :
    nilActiveProvider.retrospect "tok123"
        = Except.ok (IntrospectResult.mk none)
    ∧ ValidateAccessToken nilActiveProvider "tok123" = GoResult.panicked :=
  ⟨rfl, C10_nil_active_panics nilActiveProvider "tok123" rfl⟩
